import Mathlib

/-!
Shallow embedding of the invoice-versioning and report-month lifecycle engine
of the moloflow backend (`src/backend/invoices/models.py`), together with the
write-off fact operations, and theorems settling the specification claims.

Database rows are modelled as structures, the database as lists of rows, and
Django model methods as functions from a database to `Except DbError` results:
`ValidationError` raised by the code becomes `.error (.validationError msg)`,
foreign-key resolution failure becomes `.error .doesNotExist`, and a successful
save/delete returns the updated database.  `objects.create(...)` assigns the
fresh primary key `next_id` and appends the row.  Timestamps (`auto_now_add`)
are threaded as explicit `now` arguments; dates are plain year/month/day
records.  Only the code paths actually executed by the modelled operations are
embedded: in particular `InvoiceVersion` does not use `FullCleanSaveMixin`, so
its `clean` (and the `Invoice.clean` closed-month check) is embedded as a
separate function that the save path of `InvoiceVersion` never calls, exactly
as in the source.
-/

inductive DbError where
  | validationError (msg : String)
  | doesNotExist
  deriving Repr, DecidableEq

structure SimpleDate where
  year : Int
  month : Int
  day : Int
  deriving Repr, DecidableEq

/-- Row of the `ReportMonth` table (`models.py` lines 12-83). -/
structure ReportMonthRow where
  id : Nat
  year : Int
  month : Int
  is_closed : Bool
  closed_at : Option Nat
  deriving Repr, DecidableEq

/-- An in-memory `ReportMonth` instance: the row plus the old year/month values
captured by `ReportMonth.__init__` (lines 40-44) and the `_state.adding` flag. -/
structure ReportMonthObj where
  row : ReportMonthRow
  old_year : Int
  old_month : Int
  adding : Bool
  deriving Repr, DecidableEq

/-- Field validators of `ReportMonth`: `MinValueValidator(MIN_YEAR)` on `year`,
`MinValueValidator(MIN_MONTH)` / `MaxValueValidator(MAX_MONTH)` on `month`
(lines 15-21, constants `MIN_YEAR = 2000`, `MIN_MONTH = 1`, `MAX_MONTH = 12`). -/
def ReportMonth.clean_fields (m : ReportMonthObj) : Except DbError Unit :=
  if m.row.year < 2000 then
    .error (.validationError "Ensure this value is greater than or equal to 2000.")
  else if m.row.month < 1 then
    .error (.validationError "Ensure this value is greater than or equal to 1.")
  else if m.row.month > 12 then
    .error (.validationError "Ensure this value is less than or equal to 12.")
  else
    .ok ()

/-- `ReportMonth.clean` (lines 46-54): duplicate (year, month) check excluding
the instance's own primary key. -/
def ReportMonth.clean (db : List ReportMonthRow) (m : ReportMonthObj) : Except DbError Unit :=
  if (db.filter (fun r =>
        r.id != m.row.id && r.year == m.row.year && r.month == m.row.month)).isEmpty then
    .ok ()
  else
    .error (.validationError "Report month for this year and month already exists.")

/-- `ReportMonth.save` (lines 56-64): rejects changing year/month of a closed,
already-persisted month, then `FullCleanSaveMixin.save` runs `full_clean`
(field validators then `clean`) and persists the row. -/
def ReportMonth.save (db : List ReportMonthRow) (m : ReportMonthObj) :
    Except DbError (List ReportMonthRow) :=
  if !m.adding && m.row.is_closed
      && (m.row.year != m.old_year || m.row.month != m.old_month) then
    .error (.validationError "Cannot modify year/month of a closed report month.")
  else do
    ReportMonth.clean_fields m
    ReportMonth.clean db m
    if m.adding then
      .ok (db ++ [m.row])
    else
      .ok (db.map (fun r => if r.id == m.row.id then m.row else r))

/-- Claim C6: for every ReportMonth with `is_closed = true`, saving it with a
changed year or month fails with `ValidationError`, so (year, month) are
immutable while the month is closed. -/
theorem C6_closed_month_year_month_immutable (db : List ReportMonthRow) (m : ReportMonthObj)
    (hadd : m.adding = false) (hclosed : m.row.is_closed = true)
    (hch : m.row.year ≠ m.old_year ∨ m.row.month ≠ m.old_month) :
    ReportMonth.save db m =
      .error (.validationError "Cannot modify year/month of a closed report month.") := by
  unfold ReportMonth.save
  rcases hch with h | h <;> simp [hadd, hclosed, h]

/-- Witness for C6 at a concrete closed month whose year was changed. -/
theorem C6_closed_month_witness :
    ReportMonth.save [ReportMonthRow.mk 1 2025 5 true (some 0)]
        (ReportMonthObj.mk (ReportMonthRow.mk 1 2026 5 true (some 0)) 2025 5 false) =
      .error (.validationError "Cannot modify year/month of a closed report month.") :=
  C6_closed_month_year_month_immutable _ _ rfl rfl (Or.inl (by decide))

/-- Row of the `Invoice` table (`models.py` lines 169-248). -/
structure InvoiceRow where
  id : Nat
  number : Int
  date : SimpleDate
  active_version_id : Option Nat
  company_id : Nat
  report_month_id : Nat
  deriving Repr, DecidableEq

/-- Row of the `InvoiceVersion` table (`models.py` lines 86-166).  The uploaded
file is modelled as a string blob; the empty string is the falsy/absent file. -/
structure InvoiceVersionRow where
  id : Nat
  version : Nat
  file : String
  invoice_id : Nat
  deriving Repr, DecidableEq

/-- The relational store for the invoice side: one list per table plus the
next fresh primary key. -/
structure DB where
  report_months : List ReportMonthRow
  invoices : List InvoiceRow
  versions : List InvoiceVersionRow
  next_id : Nat
  deriving Repr, DecidableEq

/-- `InvoiceVersion.objects.filter(invoice=...).aggregate(Max("version")) or 0`
(lines 130-134 and 152-156): the maximum version number among the invoice's
versions, `0` when it has none. -/
def maxVersion (versions : List InvoiceVersionRow) (invoice_id : Nat) : Nat :=
  ((versions.filter (fun v => v.invoice_id == invoice_id)).map (fun v => v.version)).foldl
    max 0

/-- `InvoiceVersion.clean` (lines 117-124): requires a non-absent file and a
version number of at least 1.  In the source this method is only run by
`full_clean`, which the `InvoiceVersion` save path never calls. -/
def InvoiceVersion.clean (version : Nat) (file : String) : Except DbError Unit :=
  if file.isEmpty then
    .error (.validationError "File must be set for the invoice version.")
  else if version < 1 then
    .error (.validationError "Version number must be at least 1.")
  else
    .ok ()

/-- `InvoiceVersion.save` on a fresh row (`not self.pk`, lines 126-141):
re-reads the maximum version under lock, rejects a non-sequential version
number, then inserts the row with a fresh primary key. -/
def InvoiceVersion.save_new (db : DB) (invoice_id version : Nat) (file : String) :
    Except DbError (InvoiceVersionRow × DB) :=
  let last_version := maxVersion db.versions invoice_id
  if version ≠ last_version + 1 then
    .error (.validationError
      ("Version must be sequential. Expected " ++ toString (last_version + 1) ++ "."))
  else
    let row : InvoiceVersionRow := ⟨db.next_id, version, file, invoice_id⟩
    .ok (row, { db with versions := db.versions ++ [row], next_id := db.next_id + 1 })

/-- `InvoiceVersion.create_next` (lines 148-158): reads the current maximum
version for the invoice and creates a row numbered one higher via
`objects.create`, which runs `InvoiceVersion.save`. -/
def InvoiceVersion.create_next (db : DB) (invoice_id : Nat) (file : String) :
    Except DbError (InvoiceVersionRow × DB) :=
  let last := maxVersion db.versions invoice_id
  InvoiceVersion.save_new db invoice_id (last + 1) file

/-- `Invoice.add_version` (lines 241-245): delegates to
`InvoiceVersion.create_next` and returns its result; it performs no further
update of the invoice row. -/
def Invoice.add_version (db : DB) (inv : InvoiceRow) (file : String) :
    Except DbError (InvoiceVersionRow × DB) :=
  InvoiceVersion.create_next db inv.id file

/-- `InvoiceVersion.delete` (lines 143-146): resolves `self.invoice` and
refuses to delete the invoice's active version; otherwise removes the row. -/
def InvoiceVersion.delete (db : DB) (v : InvoiceVersionRow) : Except DbError DB :=
  match db.invoices.find? (fun i => i.id == v.invoice_id) with
  | none => .error .doesNotExist
  | some inv =>
    if inv.active_version_id = some v.id then
      .error (.validationError "Cannot delete the active version of the invoice.")
    else
      .ok { db with versions := db.versions.filter (fun w => w.id != v.id) }

/-- `Invoice.clean` (lines 218-230): requires a report month, rejects any
mutation while the report month is closed, and requires the invoice date to
fall inside the report month.  Run by `full_clean` on `Invoice` saves only. -/
def Invoice.clean (db : DB) (inv : InvoiceRow) : Except DbError Unit :=
  match db.report_months.find? (fun r => r.id == inv.report_month_id) with
  | none => .error (.validationError "Report month must be set for the invoice.")
  | some rm =>
    if rm.is_closed then
      .error (.validationError "Cannot modify invoice in a closed report month.")
    else if inv.date.month ≠ rm.month ∨ inv.date.year ≠ rm.year then
      .error (.validationError "Invoice date must be within the report month.")
    else
      .ok ()

/-- Repeated `Invoice.add_version` calls on one invoice, one per file blob. -/
def iterateAddVersions (db : DB) (invoice_id : Nat) : List String → Except DbError DB
  | [] => .ok db
  | f :: fs =>
    match InvoiceVersion.create_next db invoice_id f with
    | .error e => .error e
    | .ok (_, db2) => iterateAddVersions db2 invoice_id fs

/-- The version numbers of an invoice's versions, in insertion order. -/
def versionNumbers (db : DB) (invoice_id : Nat) : List Nat :=
  (db.versions.filter (fun v => v.invoice_id == invoice_id)).map (fun v => v.version)

theorem foldl_max_range_one : ∀ (n a : Nat), (List.range' 1 n).foldl max a = max a n := by
  intro n
  induction n with
  | zero => intro a; simp
  | succ k ih =>
    intro a
    rw [List.range'_1_concat, List.foldl_append, ih]
    simp only [List.foldl_cons, List.foldl_nil]
    omega

theorem maxVersion_eq_foldl (db : DB) (invoice_id : Nat) :
    maxVersion db.versions invoice_id = (versionNumbers db invoice_id).foldl max 0 := rfl

/-- `create_next` always succeeds in the sequential model: the sequential check
in `save` recomputes the same maximum it was handed, so the inserted row is
numbered `maxVersion + 1` and appended to the version table. -/
theorem create_next_eq (db : DB) (invoice_id : Nat) (file : String) :
    InvoiceVersion.create_next db invoice_id file =
      .ok (⟨db.next_id, maxVersion db.versions invoice_id + 1, file, invoice_id⟩,
        { db with
            versions := db.versions ++
              [⟨db.next_id, maxVersion db.versions invoice_id + 1, file, invoice_id⟩],
            next_id := db.next_id + 1 }) := by
  simp [InvoiceVersion.create_next, InvoiceVersion.save_new]

theorem versionNumbers_append_row (db : DB) (invoice_id : Nat) (row : InvoiceVersionRow)
    (hrow : row.invoice_id = invoice_id) :
    versionNumbers { db with
        versions := db.versions ++ [row], next_id := db.next_id + 1 } invoice_id =
      versionNumbers db invoice_id ++ [row.version] := by
  simp [versionNumbers, List.filter_append, hrow]

theorem iterate_versions_range (fs : List String) :
    ∀ (db : DB) (invoice_id n : Nat),
      versionNumbers db invoice_id = List.range' 1 n →
      ∃ db2, iterateAddVersions db invoice_id fs = .ok db2 ∧
        versionNumbers db2 invoice_id = List.range' 1 (n + fs.length) := by
  induction fs with
  | nil =>
    intro db invoice_id n h
    exact ⟨db, rfl, by simpa using h⟩
  | cons f fs ih =>
    intro db invoice_id n h
    have hmax : maxVersion db.versions invoice_id = n := by
      rw [maxVersion_eq_foldl, h, foldl_max_range_one]
      omega
    have hstep :
        versionNumbers { db with
            versions := db.versions ++
              [⟨db.next_id, maxVersion db.versions invoice_id + 1, f, invoice_id⟩],
            next_id := db.next_id + 1 } invoice_id = List.range' 1 (n + 1) := by
      rw [versionNumbers_append_row _ _ _ rfl, h, hmax, List.range'_1_concat]
      simp [Nat.add_comm]
    obtain ⟨db2, h1, h2⟩ := ih _ invoice_id (n + 1) hstep
    refine ⟨db2, ?_, ?_⟩
    · rw [iterateAddVersions, create_next_eq]
      exact h1
    · rw [h2]
      congr 1
      simp [List.length_cons]
      omega

/-- Claim C2: for an invoice starting with no versions, N successful
`createNext`/`addVersion` calls leave its version numbers exactly 1..N in
creation order (no gaps, no duplicates); each `createNext` assigns
`maxVersion + 1`, hence 1 when no version exists. -/
theorem C2_versions_contiguous :
    (∀ (db : DB) (invoice_id : Nat) (file : String),
      ∃ r db2, InvoiceVersion.create_next db invoice_id file = .ok (r, db2) ∧
        r.version = maxVersion db.versions invoice_id + 1) ∧
    (∀ (db : DB) (invoice_id : Nat) (files : List String),
      versionNumbers db invoice_id = [] →
      ∃ db2, iterateAddVersions db invoice_id files = .ok db2 ∧
        versionNumbers db2 invoice_id = List.range' 1 files.length) := by
  constructor
  · intro db invoice_id file
    exact ⟨_, _, create_next_eq db invoice_id file, rfl⟩
  · intro db invoice_id files h
    have h0 : versionNumbers db invoice_id = List.range' 1 0 := by simpa using h
    obtain ⟨db2, h1, h2⟩ := iterate_versions_range files db invoice_id 0 h0
    exact ⟨db2, h1, by simpa using h2⟩

def dbC2 : DB :=
  ⟨[⟨1, 2025, 6, false, none⟩], [⟨1, 1, ⟨2025, 6, 15⟩, none, 1, 1⟩], [], 10⟩

/-- Witness for C2: three add-version calls on a fresh invoice yield
version numbers `[1, 2, 3]`. -/
theorem C2_versions_contiguous_witness :
    versionNumbers dbC2 1 = [] ∧
    ∃ db2, iterateAddVersions dbC2 1 ["blobA", "blobB", "blobC"] = .ok db2 ∧
      versionNumbers db2 1 = List.range' 1 3 :=
  ⟨rfl, C2_versions_contiguous.2 dbC2 1 ["blobA", "blobB", "blobC"] rfl⟩

def dbC1 : DB :=
  ⟨[⟨1, 2025, 6, false, none⟩], [⟨1, 1, ⟨2025, 6, 15⟩, none, 1, 1⟩], [], 10⟩

def invC1 : InvoiceRow := ⟨1, 1, ⟨2025, 6, 15⟩, none, 1, 1⟩

/-- Claim C1, evaluated at the failing input: on an invoice with no versions,
`add_version` succeeds and creates version 1 (primary key 10), yet the stored
invoice row afterwards still has `active_version_id = none`: `add_version`
never sets the active-version pointer to the new version, contrary to the
claim. -/
theorem C1_add_version_leaves_active_pointer_unset :
    ∃ v db2, Invoice.add_version dbC1 invC1 "fileA" = .ok (v, db2) ∧
      v.version = 1 ∧ v.id = 10 ∧
      (db2.invoices.find? (fun i => i.id == 1)).map (fun i => i.active_version_id) =
        some none :=
  ⟨⟨10, 1, "fileA", 1⟩,
    ⟨[⟨1, 2025, 6, false, none⟩], [⟨1, 1, ⟨2025, 6, 15⟩, none, 1, 1⟩],
      [⟨10, 1, "fileA", 1⟩], 11⟩,
    rfl, rfl, rfl, rfl⟩

def dbC3 : DB :=
  ⟨[⟨1, 2025, 6, true, some 100⟩], [⟨1, 1, ⟨2025, 6, 15⟩, none, 1, 1⟩], [], 20⟩

def invC3 : InvoiceRow := ⟨1, 1, ⟨2025, 6, 15⟩, none, 1, 1⟩

/-- Claim C3, evaluated at the failing input: the invoice's report month is
closed, so `Invoice.clean` would reject any invoice mutation, but
`add_version` runs no closed-month check: it succeeds and inserts a version
row, contrary to the claim. -/
theorem C3_add_version_ignores_closed_month :
    Invoice.clean dbC3 invC3 =
      .error (.validationError "Cannot modify invoice in a closed report month.") ∧
    ∃ v db2, Invoice.add_version dbC3 invC3 "blobA" = .ok (v, db2) ∧
      v.version = 1 ∧ db2.versions.length = 1 :=
  ⟨rfl, ⟨20, 1, "blobA", 1⟩,
    ⟨[⟨1, 2025, 6, true, some 100⟩], [⟨1, 1, ⟨2025, 6, 15⟩, none, 1, 1⟩],
      [⟨20, 1, "blobA", 1⟩], 21⟩,
    rfl, rfl, rfl⟩

def dbC4 : DB :=
  ⟨[⟨1, 2025, 6, false, none⟩], [⟨1, 1, ⟨2025, 6, 15⟩, none, 1, 1⟩], [], 30⟩

/-- Claim C4, evaluated at the failing input: `InvoiceVersion.clean` would
reject an absent/empty file, but the `create_next` path never runs `clean`
(no `full_clean` call): `create_next` with an empty file succeeds and inserts
the row, contrary to the claim. -/
theorem C4_create_next_accepts_absent_file :
    InvoiceVersion.clean 1 "" =
      .error (.validationError "File must be set for the invoice version.") ∧
    ∃ v db2, InvoiceVersion.create_next dbC4 1 "" = .ok (v, db2) ∧
      v.file = "" ∧ db2.versions.length = 1 :=
  ⟨rfl, ⟨30, 1, "", 1⟩,
    ⟨[⟨1, 2025, 6, false, none⟩], [⟨1, 1, ⟨2025, 6, 15⟩, none, 1, 1⟩],
      [⟨30, 1, "", 1⟩], 31⟩,
    rfl, rfl, rfl⟩

/-- Claim C5: deleting the invoice's active version fails with
`ValidationError`; deleting a non-active version succeeds, removes exactly that
row, and leaves the invoice table (hence `active_version_id`) unchanged. -/
theorem C5_delete_active_version_protected (db : DB) (v : InvoiceVersionRow)
    (inv : InvoiceRow)
    (hfind : db.invoices.find? (fun i => i.id == v.invoice_id) = some inv) :
    (inv.active_version_id = some v.id →
      InvoiceVersion.delete db v =
        .error (.validationError "Cannot delete the active version of the invoice.")) ∧
    (inv.active_version_id ≠ some v.id →
      ∃ db2, InvoiceVersion.delete db v = .ok db2 ∧
        db2.invoices = db.invoices ∧
        db2.versions = db.versions.filter (fun w => w.id != v.id)) := by
  constructor
  · intro h
    simp only [InvoiceVersion.delete, hfind]
    rw [if_pos h]
  · intro h
    have hdel : InvoiceVersion.delete db v =
        .ok { db with versions := db.versions.filter (fun w => w.id != v.id) } := by
      simp only [InvoiceVersion.delete, hfind]
      rw [if_neg h]
    exact ⟨_, hdel, rfl, rfl⟩

def dbC5 : DB :=
  ⟨[⟨1, 2025, 6, false, none⟩], [⟨1, 1, ⟨2025, 6, 15⟩, some 11, 1, 1⟩],
    [⟨10, 1, "blobA", 1⟩, ⟨11, 2, "blobB", 1⟩], 12⟩

def invC5 : InvoiceRow := ⟨1, 1, ⟨2025, 6, 15⟩, some 11, 1, 1⟩

/-- Witness for C5: with active version 11, deleting version 11 fails and
deleting version 10 succeeds with the invoice table unchanged. -/
theorem C5_delete_active_version_witness :
    InvoiceVersion.delete dbC5 ⟨11, 2, "blobB", 1⟩ =
      .error (.validationError "Cannot delete the active version of the invoice.") ∧
    ∃ db2, InvoiceVersion.delete dbC5 ⟨10, 1, "blobA", 1⟩ = .ok db2 ∧
      db2.invoices = dbC5.invoices ∧
      db2.versions = dbC5.versions.filter (fun w => w.id != 10) :=
  ⟨(C5_delete_active_version_protected dbC5 ⟨11, 2, "blobB", 1⟩ invC5 rfl).1 rfl,
    (C5_delete_active_version_protected dbC5 ⟨10, 1, "blobA", 1⟩ invC5 rfl).2 (by decide)⟩

/-- Claim C10: `InvoiceVersion.delete` raises `ValidationError` exactly when
the version is the invoice's active version, and for a non-active version it
succeeds — for every database state, so in particular when the invoice's
report month is closed: deletion performs no closed-report-month check. -/
theorem C10_delete_error_iff_active (db : DB) (v : InvoiceVersionRow) (inv : InvoiceRow)
    (hfind : db.invoices.find? (fun i => i.id == v.invoice_id) = some inv) :
    ((∃ msg, InvoiceVersion.delete db v = .error (.validationError msg)) ↔
      inv.active_version_id = some v.id) ∧
    (inv.active_version_id ≠ some v.id →
      InvoiceVersion.delete db v =
        .ok { db with versions := db.versions.filter (fun w => w.id != v.id) }) := by
  by_cases h : inv.active_version_id = some v.id
  · have hdel : InvoiceVersion.delete db v =
        .error (.validationError "Cannot delete the active version of the invoice.") := by
      simp only [InvoiceVersion.delete, hfind]
      rw [if_pos h]
    rw [hdel]
    exact ⟨⟨fun _ => h, fun _ => ⟨_, rfl⟩⟩, fun hc => absurd h hc⟩
  · have hdel : InvoiceVersion.delete db v =
        .ok { db with versions := db.versions.filter (fun w => w.id != v.id) } := by
      simp only [InvoiceVersion.delete, hfind]
      rw [if_neg h]
    rw [hdel]
    exact ⟨⟨fun ⟨msg, hm⟩ => by simp at hm, fun hc => absurd hc h⟩, fun _ => rfl⟩

def dbC10 : DB :=
  ⟨[⟨1, 2025, 6, true, some 100⟩], [⟨1, 1, ⟨2025, 6, 15⟩, some 11, 1, 1⟩],
    [⟨10, 1, "blobA", 1⟩, ⟨11, 2, "blobB", 1⟩], 12⟩

def invC10 : InvoiceRow := ⟨1, 1, ⟨2025, 6, 15⟩, some 11, 1, 1⟩

/-- Witness for C10, on a database whose report month is closed: deleting the
non-active version 10 still succeeds (no closed-month check), and deletion of
a version raises `ValidationError` iff it is the active one. -/
theorem C10_delete_error_iff_active_witness :
    dbC10.report_months.all (fun r => r.is_closed) = true ∧
    (((∃ msg, InvoiceVersion.delete dbC10 ⟨10, 1, "blobA", 1⟩ =
        .error (.validationError msg)) ↔ invC10.active_version_id = some 10) ∧
      (invC10.active_version_id ≠ some 10 →
        InvoiceVersion.delete dbC10 ⟨10, 1, "blobA", 1⟩ =
          .ok { dbC10 with
            versions := dbC10.versions.filter (fun w => w.id != 10) })) :=
  ⟨rfl, C10_delete_error_iff_active dbC10 ⟨10, 1, "blobA", 1⟩ invC10 rfl⟩

/-- Equipment snapshot argument of `clone_as_manual` (`models.py` lines 464-478). -/
structure EquipmentSnapshot where
  name : String
  inventory_number : String
  sequence_number : Nat
  company_name : String
  deriving Repr, DecidableEq

/-- Row of the `WriteOffFact` table (`models.py` lines 377-478).  `quantity` is
the decimal amount scaled to an integer number of hundredths; `source` and
`status` are the raw choice strings of the source. -/
structure WriteOffFactRow where
  id : Nat
  spare_part_id : Nat
  quantity : Int
  fact_date : SimpleDate
  equipment_name : String
  equipment_inventory_number : String
  equipment_sequence_number : Nat
  equipment_company_name : String
  invoice_item_id : Option Nat
  report_month_id : Nat
  created_at : Nat
  source : String
  status : String
  deriving Repr, DecidableEq

/-- The write-off fact table plus the next fresh primary key. -/
structure FactsDB where
  facts : List WriteOffFactRow
  next_id : Nat
  deriving Repr, DecidableEq

/-- `WriteOffFact.objects.create(...)`: `WriteOffFact` has no custom save and
no `FullCleanSaveMixin`, so creation performs no validation: it assigns the
fresh primary key, stamps `created_at` (`auto_now_add`, the `now` argument)
and appends the row. -/
def WriteOffFact.create (db : FactsDB) (now : Nat) (spare_part_id : Nat) (quantity : Int)
    (fact_date : SimpleDate) (equipment_name equipment_inventory_number : String)
    (equipment_sequence_number : Nat) (equipment_company_name : String)
    (invoice_item_id : Option Nat) (report_month_id : Nat) (source status : String) :
    WriteOffFactRow × FactsDB :=
  let row : WriteOffFactRow :=
    ⟨db.next_id, spare_part_id, quantity, fact_date, equipment_name,
      equipment_inventory_number, equipment_sequence_number, equipment_company_name,
      invoice_item_id, report_month_id, now, source, status⟩
  (row, ⟨db.facts ++ [row], db.next_id + 1⟩)

/-- `WriteOffFact.cancel` (lines 457-462): early-returns when already canceled,
otherwise flips `status` to canceled; `save(update_fields=["status"])` persists
only the status field. -/
def WriteOffFact.cancel (f : WriteOffFactRow) : WriteOffFactRow :=
  if f.status == "canceled" then f else { f with status := "canceled" }

/-- Persisting a `cancel` call on the fact with primary key `fid`. -/
def cancelInDb (db : FactsDB) (fid : Nat) : FactsDB :=
  { db with facts := db.facts.map (fun f => if f.id == fid then WriteOffFact.cancel f else f) }

/-- `WriteOffFact.clone_as_manual` (lines 464-478): creates a fresh fact
copying `spare_part` and `report_month` from the original, taking quantity,
date and the equipment snapshot from the arguments, with `invoice_item=None`,
`source="manual"`, `status="active"`. -/
def WriteOffFact.clone_as_manual (db : FactsDB) (now : Nat) (f : WriteOffFactRow)
    (quantity : Int) (fact_date : SimpleDate) (equipment_snapshot : EquipmentSnapshot) :
    WriteOffFactRow × FactsDB :=
  WriteOffFact.create db now f.spare_part_id quantity fact_date equipment_snapshot.name
    equipment_snapshot.inventory_number equipment_snapshot.sequence_number
    equipment_snapshot.company_name none f.report_month_id "manual" "active"

theorem cancel_idem_row (f : WriteOffFactRow) :
    WriteOffFact.cancel (WriteOffFact.cancel f) = WriteOffFact.cancel f := by
  unfold WriteOffFact.cancel
  by_cases h : f.status == "canceled" <;> simp [h]

/-- Claim C7: `cancel` is idempotent (both on the row and on the persisted
table), never deletes the row (table length is preserved), and changes only
the status: quantity, date, the equipment snapshot, spare part, invoice item,
report month and source are unchanged. -/
theorem C7_cancel_idempotent_status_only (f : WriteOffFactRow) (db : FactsDB) (fid : Nat) :
    WriteOffFact.cancel (WriteOffFact.cancel f) = WriteOffFact.cancel f ∧
    cancelInDb (cancelInDb db fid) fid = cancelInDb db fid ∧
    (cancelInDb db fid).facts.length = db.facts.length ∧
    (WriteOffFact.cancel f).status = "canceled" ∧
    (WriteOffFact.cancel f).id = f.id ∧
    (WriteOffFact.cancel f).spare_part_id = f.spare_part_id ∧
    (WriteOffFact.cancel f).quantity = f.quantity ∧
    (WriteOffFact.cancel f).fact_date = f.fact_date ∧
    (WriteOffFact.cancel f).equipment_name = f.equipment_name ∧
    (WriteOffFact.cancel f).equipment_inventory_number = f.equipment_inventory_number ∧
    (WriteOffFact.cancel f).equipment_sequence_number = f.equipment_sequence_number ∧
    (WriteOffFact.cancel f).equipment_company_name = f.equipment_company_name ∧
    (WriteOffFact.cancel f).invoice_item_id = f.invoice_item_id ∧
    (WriteOffFact.cancel f).report_month_id = f.report_month_id ∧
    (WriteOffFact.cancel f).created_at = f.created_at ∧
    (WriteOffFact.cancel f).source = f.source := by
  refine ⟨cancel_idem_row f, ?_, ?_, ?_⟩
  · unfold cancelInDb
    simp only [List.map_map]
    congr 1
    apply List.map_congr_left
    intro g _
    simp only [Function.comp_apply]
    by_cases h : g.id == fid
    · have hid : (WriteOffFact.cancel g).id = g.id := by
        unfold WriteOffFact.cancel
        by_cases hs : g.status == "canceled" <;> simp [hs]
      simp [h, hid, cancel_idem_row]
    · simp [h]
  · simp [cancelInDb]
  · unfold WriteOffFact.cancel
    by_cases h : f.status == "canceled" <;> simp_all

/-- Claim C8: `clone_as_manual` creates a new independent fact with
`source="manual"`, `status="active"`, no invoice item, spare part and report
month copied from the original, quantity/date/snapshot from the arguments, and
the original table rows (in particular the original fact) are untouched: the
new table is the old one with the clone appended. -/
theorem C8_clone_as_manual_fields (db : FactsDB) (now : Nat) (f : WriteOffFactRow)
    (quantity : Int) (fact_date : SimpleDate) (snap : EquipmentSnapshot) :
    ((WriteOffFact.clone_as_manual db now f quantity fact_date snap).1.source = "manual") ∧
    ((WriteOffFact.clone_as_manual db now f quantity fact_date snap).1.status = "active") ∧
    ((WriteOffFact.clone_as_manual db now f quantity fact_date snap).1.invoice_item_id
      = none) ∧
    ((WriteOffFact.clone_as_manual db now f quantity fact_date snap).1.spare_part_id
      = f.spare_part_id) ∧
    ((WriteOffFact.clone_as_manual db now f quantity fact_date snap).1.report_month_id
      = f.report_month_id) ∧
    ((WriteOffFact.clone_as_manual db now f quantity fact_date snap).1.quantity
      = quantity) ∧
    ((WriteOffFact.clone_as_manual db now f quantity fact_date snap).1.fact_date
      = fact_date) ∧
    ((WriteOffFact.clone_as_manual db now f quantity fact_date snap).1.equipment_name
      = snap.name) ∧
    ((WriteOffFact.clone_as_manual db now f quantity fact_date
        snap).1.equipment_inventory_number = snap.inventory_number) ∧
    ((WriteOffFact.clone_as_manual db now f quantity fact_date
        snap).1.equipment_sequence_number = snap.sequence_number) ∧
    ((WriteOffFact.clone_as_manual db now f quantity fact_date
        snap).1.equipment_company_name = snap.company_name) ∧
    ((WriteOffFact.clone_as_manual db now f quantity fact_date snap).2.facts
      = db.facts ++ [(WriteOffFact.clone_as_manual db now f quantity fact_date snap).1]) :=
  ⟨rfl, rfl, rfl, rfl, rfl, rfl, rfl, rfl, rfl, rfl, rfl, rfl⟩

/-- Claim C9 counterexample: `WriteOffFact.objects.create` performs no
structural validation, so a fact with `source="invoice"` and a null invoice
item is created without error — the claimed nullability correspondence does
not hold after every creating operation of this component. -/
theorem C9_create_invoice_source_null_item_counterexample :
    ((WriteOffFact.create ⟨[], 0⟩ 0 1 100 ⟨2025, 6, 15⟩ "pump" "inv-7" 1 "acme"
        none 1 "invoice" "active").1.source = "invoice") ∧
    ((WriteOffFact.create ⟨[], 0⟩ 0 1 100 ⟨2025, 6, 15⟩ "pump" "inv-7" 1 "acme"
        none 1 "invoice" "active").1.invoice_item_id = none) ∧
    ((WriteOffFact.create ⟨[], 0⟩ 0 1 100 ⟨2025, 6, 15⟩ "pump" "inv-7" 1 "acme"
        none 1 "invoice" "active").2.facts.length = 1) :=
  ⟨rfl, rfl, rfl⟩

/-- Claim C9 as amended: the only in-component creation path with fixed
source, `clone_as_manual`, always produces `source="manual"` facts with
`invoice_item=None`, consistent with the correspondence; the generic create
enforces nothing. -/
theorem C9_clone_as_manual_nullability (db : FactsDB) (now : Nat) (f : WriteOffFactRow)
    (quantity : Int) (fact_date : SimpleDate) (snap : EquipmentSnapshot) :
    ((WriteOffFact.clone_as_manual db now f quantity fact_date snap).1.source
      = "manual") ∧
    ((WriteOffFact.clone_as_manual db now f quantity fact_date snap).1.invoice_item_id
      = none) :=
  ⟨rfl, rfl⟩
